import Mathlib

/-!
Verification of the configuration header of the ESP32 MQTT GPIO controller
(src/firmware/ESP32_MQTT_GPIO_Controller/config.h).

The header is pure configuration data: compile-time constants for WiFi
credentials, MQTT broker parameters, MQTT topic strings, GPIO pin
assignments, sensor settings and debug settings.  Each C macro or constant
is embedded as a Lean definition of the corresponding value.  The firmware
that consumes these constants is not part of the repository; where a claim
is about that consuming behaviour (immutability under all operations,
round-tripping through a persisted settings file) the missing behaviour is
modelled from the specification, as flagged on the definitions involved.
-/

namespace ESP32Config

/-! ## WiFi configuration (config.h lines 10-12) -/

def WIFI_SSID : String := "<your_wifi_ssid>"

def WIFI_PASSWORD : String := "<your_wifi_password>"

def WIFI_TIMEOUT : Nat := 20000

/-! ## MQTT configuration (config.h lines 15-20) -/

def MQTT_BROKER : String := "<your_mqtt_broker>"

def MQTT_PORT : Nat := 8883

def MQTT_CLIENT_ID : String := "ESP32_GPIO_Controller"

def MQTT_USERNAME : String := "<your_mqtt_username>"

def MQTT_PASSWORD : String := "<your_mqtt_password>"

def MQTT_RECONNECT_DELAY : Nat := 5000

/-! ## MQTT topics (config.h lines 37-40).

In the C source the control, status and telemetry topics are formed by
preprocessor string-literal concatenation of MQTT_TOPIC_PREFIX with a
suffix; the embedding mirrors that with String append. -/

def MQTT_TOPIC_PREFIX : String := "esp32/gpio"

def MQTT_TOPIC_CONTROL : String := MQTT_TOPIC_PREFIX ++ "/control"

def MQTT_TOPIC_STATUS : String := MQTT_TOPIC_PREFIX ++ "/status"

def MQTT_TOPIC_TELEMETRY : String := MQTT_TOPIC_PREFIX ++ "/telemetry"

/-! ## GPIO pin configuration (config.h lines 43-51) -/

def NUM_CONTROL_PINS : Nat := 4

def CONTROL_PINS : List Int := [5, 15, 17, 18]

/-! ## Sensor settings (config.h lines 54-55) -/

/-- The DHT sensor type selector: the header comment says DHT11 or DHT22. -/
inductive DhtSensorType where
  | DHT11
  | DHT22
deriving DecidableEq

def DHT_SENSOR_PIN : Int := 4

def DHT_SENSOR_TYPE : DhtSensorType := DhtSensorType.DHT22

/-! ## Debug settings (config.h lines 58-59) -/

def DEBUG_ENABLED : Bool := true

def SERIAL_BAUD_RATE : Nat := 115200

/-! ## Helper predicates used by the claims -/

/-- A credential value is an unreplaced placeholder when it begins with
the character < and ends with the character >. -/
def isPlaceholder (s : String) : Bool :=
  match s.data with
  | [] => false
  | c :: _ => c = '<' && s.data.getLast? = some '>'

/-! ## The configuration table as a record

The specification describes the header as a Device Configuration Table: a
single record of named values.  The record below collects exactly the
values defined in config.h, and theConfig instantiates it with the values
of this build. -/

structure Config where
  wifiSsid : String
  wifiPassword : String
  wifiTimeout : Nat
  mqttBroker : String
  mqttPort : Nat
  mqttClientId : String
  mqttUsername : String
  mqttPassword : String
  mqttReconnectDelay : Nat
  mqttTopicBase : String
  numControlPins : Nat
  controlPins : List Int
  dhtSensorPin : Int
  dhtSensorType : DhtSensorType
  debugEnabled : Bool
  serialBaudRate : Nat

/-- The configuration of this build, statically initialized from the
constants of config.h. -/
def theConfig : Config where
  wifiSsid := WIFI_SSID
  wifiPassword := WIFI_PASSWORD
  wifiTimeout := WIFI_TIMEOUT
  mqttBroker := MQTT_BROKER
  mqttPort := MQTT_PORT
  mqttClientId := MQTT_CLIENT_ID
  mqttUsername := MQTT_USERNAME
  mqttPassword := MQTT_PASSWORD
  mqttReconnectDelay := MQTT_RECONNECT_DELAY
  mqttTopicBase := MQTT_TOPIC_PREFIX
  numControlPins := NUM_CONTROL_PINS
  controlPins := CONTROL_PINS
  dhtSensorPin := DHT_SENSOR_PIN
  dhtSensorType := DHT_SENSOR_TYPE
  debugEnabled := DEBUG_ENABLED
  serialBaudRate := SERIAL_BAUD_RATE

/-! ## Read-only access to the configuration

Modelled from the spec: the firmware that consumes the configuration is
not in the repository.  The spec's public contract for the table is
read-only access to each named value and no operations beyond value
retrieval, so the operation alphabet below has exactly one operation per
named field, each a read. -/

/-- The named fields of the configuration table. -/
inductive ConfigField where
  | wifiSsid
  | wifiPassword
  | wifiTimeout
  | mqttBroker
  | mqttPort
  | mqttClientId
  | mqttUsername
  | mqttPassword
  | mqttReconnectDelay
  | mqttTopicBase
  | numControlPins
  | controlPins
  | dhtSensorPin
  | dhtSensorType
  | debugEnabled
  | serialBaudRate
deriving DecidableEq

/-- The values a configuration field can hold. -/
inductive ConfigValue where
  | vStr (s : String)
  | vNat (n : Nat)
  | vInt (i : Int)
  | vBool (b : Bool)
  | vPins (ps : List Int)
  | vSensor (t : DhtSensorType)
deriving DecidableEq

/-- Reading one named value from a configuration table. -/
def readField (c : Config) : ConfigField → ConfigValue
  | .wifiSsid => .vStr c.wifiSsid
  | .wifiPassword => .vStr c.wifiPassword
  | .wifiTimeout => .vNat c.wifiTimeout
  | .mqttBroker => .vStr c.mqttBroker
  | .mqttPort => .vNat c.mqttPort
  | .mqttClientId => .vStr c.mqttClientId
  | .mqttUsername => .vStr c.mqttUsername
  | .mqttPassword => .vStr c.mqttPassword
  | .mqttReconnectDelay => .vNat c.mqttReconnectDelay
  | .mqttTopicBase => .vStr c.mqttTopicBase
  | .numControlPins => .vNat c.numControlPins
  | .controlPins => .vPins c.controlPins
  | .dhtSensorPin => .vInt c.dhtSensorPin
  | .dhtSensorType => .vSensor c.dhtSensorType
  | .debugEnabled => .vBool c.debugEnabled
  | .serialBaudRate => .vNat c.serialBaudRate

/-- Modelled from the spec: the operations the program exposes over the
configuration table.  The spec says there is no runtime mutation API and
no operation beyond value retrieval, so every operation is the read of one
field. -/
inductive ConfigOp where
  | read (f : ConfigField)
deriving DecidableEq

/-- Executing one operation: it returns the value read and the (unchanged)
table that later operations see. -/
def applyOp (c : Config) : ConfigOp → Config × ConfigValue
  | .read f => (c, readField c f)

/-- Executing a whole program: a sequence of operations against the table,
collecting the value each read returns. -/
def runOps (c : Config) : List ConfigOp → Config × List ConfigValue
  | [] => (c, [])
  | op :: ops =>
      let s := applyOp c op
      let r := runOps s.1 ops
      (r.1, s.2 :: r.2)

/-! ## Persistence round-trip

Modelled from the spec: the repository has no serialization code; the spec
asks that serializing the configuration table to a persisted form and
reloading it reproduce identical field values.  The persisted form is a
settings file modelled as a list of key/value entries, one per named
field; loading parses the entries back in order and fails on any
malformed file. -/

/-- One entry of the persisted settings file: a key naming the field and
the stored value. -/
structure PersistedEntry where
  key : String
  value : ConfigValue
deriving DecidableEq

/-- Modelled from the spec: serialize the configuration table to its
persisted form, one keyed entry per named field. -/
def serializeConfig (c : Config) : List PersistedEntry :=
  [⟨"wifi_ssid", .vStr c.wifiSsid⟩,
   ⟨"wifi_password", .vStr c.wifiPassword⟩,
   ⟨"wifi_timeout", .vNat c.wifiTimeout⟩,
   ⟨"mqtt_broker", .vStr c.mqttBroker⟩,
   ⟨"mqtt_port", .vNat c.mqttPort⟩,
   ⟨"mqtt_client_id", .vStr c.mqttClientId⟩,
   ⟨"mqtt_username", .vStr c.mqttUsername⟩,
   ⟨"mqtt_password", .vStr c.mqttPassword⟩,
   ⟨"mqtt_reconnect_delay", .vNat c.mqttReconnectDelay⟩,
   ⟨"mqtt_topic_base", .vStr c.mqttTopicBase⟩,
   ⟨"num_control_pins", .vNat c.numControlPins⟩,
   ⟨"control_pins", .vPins c.controlPins⟩,
   ⟨"dht_sensor_pin", .vInt c.dhtSensorPin⟩,
   ⟨"dht_sensor_type", .vSensor c.dhtSensorType⟩,
   ⟨"debug_enabled", .vBool c.debugEnabled⟩,
   ⟨"serial_baud_rate", .vNat c.serialBaudRate⟩]

/-- Modelled from the spec: reload a configuration table from its
persisted form; any file not shaped as the sixteen expected keyed entries
fails to load. -/
def loadConfig : List PersistedEntry → Option Config
  | [⟨"wifi_ssid", .vStr a⟩,
     ⟨"wifi_password", .vStr b⟩,
     ⟨"wifi_timeout", .vNat t⟩,
     ⟨"mqtt_broker", .vStr h⟩,
     ⟨"mqtt_port", .vNat p⟩,
     ⟨"mqtt_client_id", .vStr ci⟩,
     ⟨"mqtt_username", .vStr u⟩,
     ⟨"mqtt_password", .vStr w⟩,
     ⟨"mqtt_reconnect_delay", .vNat d⟩,
     ⟨"mqtt_topic_base", .vStr tb⟩,
     ⟨"num_control_pins", .vNat n⟩,
     ⟨"control_pins", .vPins ps⟩,
     ⟨"dht_sensor_pin", .vInt sp⟩,
     ⟨"dht_sensor_type", .vSensor st⟩,
     ⟨"debug_enabled", .vBool e⟩,
     ⟨"serial_baud_rate", .vNat r⟩] =>
      some ⟨a, b, t, h, p, ci, u, w, d, tb, n, ps, sp, st, e, r⟩
  | _ => none

/-! ## Claims -/

/-- Helper: running any sequence of operations leaves the table unchanged
and each read returns the value of the field in that table. -/
theorem runOps_reads_only (c : Config) (ops : List ConfigOp) :
    runOps c ops = (c, ops.map fun op => match op with | .read f => readField c f) := by
  induction ops with
  | nil => rfl
  | cons op ops ih => cases op with
    | read f => simp [runOps, applyOp, ih]

/-- C1: Each of the three MQTT topic constants equals the topic base
followed by exactly one distinct suffix: with base "esp32/gpio", the
control topic equals "esp32/gpio/control", the status topic equals
"esp32/gpio/status", and the telemetry topic equals
"esp32/gpio/telemetry", so all three topics share the single base. -/
theorem topics_share_base :
    MQTT_TOPIC_CONTROL = MQTT_TOPIC_PREFIX ++ "/control"
    ∧ MQTT_TOPIC_STATUS = MQTT_TOPIC_PREFIX ++ "/status"
    ∧ MQTT_TOPIC_TELEMETRY = MQTT_TOPIC_PREFIX ++ "/telemetry"
    ∧ MQTT_TOPIC_PREFIX = "esp32/gpio"
    ∧ MQTT_TOPIC_CONTROL = "esp32/gpio/control"
    ∧ MQTT_TOPIC_STATUS = "esp32/gpio/status"
    ∧ MQTT_TOPIC_TELEMETRY = "esp32/gpio/telemetry" := by
  refine ⟨rfl, rfl, rfl, rfl, ?_, ?_, ?_⟩ <;> decide

/-- C2: The declared control-pin count equals the length of the
control-pin sequence; both are 4 in this configuration. -/
theorem num_control_pins_matches_length :
    NUM_CONTROL_PINS = CONTROL_PINS.length
    ∧ NUM_CONTROL_PINS = 4
    ∧ CONTROL_PINS.length = 4 := by decide

/-- C3: The sensor GPIO pin is distinct from every entry of the
control-pin sequence: DHT_SENSOR_PIN is not an element of CONTROL_PINS. -/
theorem sensor_pin_not_a_control_pin : DHT_SENSOR_PIN ∉ CONTROL_PINS := by
  decide

/-- C4: The control-pin sequence is exactly [5, 15, 17, 18], its count is
4, and every element is a non-negative integer distinct from every other
element of the sequence. -/
theorem control_pins_exact :
    CONTROL_PINS = [5, 15, 17, 18]
    ∧ CONTROL_PINS.length = 4
    ∧ (∀ x ∈ CONTROL_PINS, 0 ≤ x)
    ∧ CONTROL_PINS.Nodup := by decide

/-- C5: The MQTT broker port value lies within the range 1 to 65535
inclusive; the configured value is 8883. -/
theorem mqtt_port_in_range :
    1 ≤ MQTT_PORT ∧ MQTT_PORT ≤ 65535 ∧ MQTT_PORT = 8883 := by decide

/-- C6: The WiFi connection timeout WIFI_TIMEOUT and the MQTT reconnect
delay MQTT_RECONNECT_DELAY are each strictly positive integers. -/
theorem timeouts_strictly_positive :
    0 < WIFI_TIMEOUT ∧ 0 < MQTT_RECONNECT_DELAY := by decide

/-- C7: Every named configuration value is an immutable, process-lifetime
constant: running any sequence of the operations the program exposes over
the table leaves the table equal to its statically initialized value, and
every read in the sequence returns the statically initialized value of
the field it reads. -/
theorem config_immutable (ops : List ConfigOp) :
    (runOps theConfig ops).1 = theConfig
    ∧ (runOps theConfig ops).2
        = ops.map fun op => match op with | .read f => readField theConfig f := by
  rw [runOps_reads_only]
  exact ⟨rfl, rfl⟩

/-- C8: Round-trip: for every configuration table, serializing it to the
persisted settings-file form and reloading it yields exactly the original
configuration, every field value identical. -/
theorem serialize_load_roundtrip (c : Config) :
    loadConfig (serializeConfig c) = some c := rfl

/-- C9: In the shipped configuration, each of the WiFi SSID, WiFi
password, MQTT broker host, MQTT username, and MQTT password is an
unreplaced placeholder string beginning with the character < and ending
with the character >. -/
theorem credentials_are_placeholders :
    isPlaceholder WIFI_SSID = true
    ∧ isPlaceholder WIFI_PASSWORD = true
    ∧ isPlaceholder MQTT_BROKER = true
    ∧ isPlaceholder MQTT_USERNAME = true
    ∧ isPlaceholder MQTT_PASSWORD = true := by decide

/-- C10: The three MQTT topic strings are pairwise distinct: the control
topic, status topic, and telemetry topic are three different strings. -/
theorem topics_pairwise_distinct :
    MQTT_TOPIC_CONTROL ≠ MQTT_TOPIC_STATUS
    ∧ MQTT_TOPIC_CONTROL ≠ MQTT_TOPIC_TELEMETRY
    ∧ MQTT_TOPIC_STATUS ≠ MQTT_TOPIC_TELEMETRY := by decide

end ESP32Config

